import Mathlib

/-!
Shallow embedding of the TaskFlow-Pro automation rule engine
(`src/unnamed/part_002`, the module exporting `executeAutomationRules`
and `updateRuleTriggerCount`) together with the data model it reads
from `src/src/types.ts`.

Modelling conventions:
* JavaScript runtime values that flow through the dynamic parts of the
  engine (condition `value`, dynamic field lookup) are modelled by
  `JSVal`.  `Number(...)` coercion is `toNumber : JSVal → JSNum`, where
  `JSNum` distinguishes NaN, the infinities and exact finite rationals
  (the rounding of finite results to doubles is not modelled).
* Wall-clock time (`new Date()`) is threaded as an explicit `now : Int`
  (milliseconds since epoch).  A `Date` object on a task is a `JSDate`:
  an object identity plus the timestamp it denotes, so `===`/`!==`
  (identity) and `getTime()` (value) are both expressible.  A rule's
  `createdAt` is modelled by its timestamp alone, since the engine only
  ever reads `new Date(rule.createdAt).getTime()`.
* Strict equality `===` is `jsStrictEq`: no coercion across types,
  `NaN === x` false, dates and plain objects by identity; arrays compare
  by reference and the two sides of `===` in this engine always have
  distinct provenance (rule store vs. task), hence `false` on `varr`.
* Arrays carry their elements; per `src/src/types.ts` every array-valued
  task property is a `string[]` or an array of plain objects, so an
  element is a string or an opaque object reference (`JSElem`).
* `Number(string)` implements the StringNumericLiteral grammar: blank,
  radix-prefixed integers, `Infinity`, and signed decimals with fraction
  and exponent; finite values are exact rationals.
* JavaScript `Number`/`Date` stringification of non-integers is
  locale/format dependent and modelled opaquely (no claim depends on it).
-/

namespace TaskFlow

/-- A JavaScript `Date` object: an object identity (`ref`) plus the
timestamp it denotes.  A date's identity determines its value, so two
occurrences with the same `ref` always carry the same `ms` in any run;
`===`/`!==` on dates compare `ref`, `getTime()`/`Number` read `ms`. -/
structure JSDate where
  ref : Nat
  ms : Int
deriving DecidableEq, Repr

/-- An element of an array value reaching the engine.  Per
`src/src/types.ts` every array-valued task property is a `string[]`
(`tags`, `relatedTaskIds`, `reviewers`, `blockedBy`) or an array of
plain objects (`comments`, `attachments`, `checklist`, `subtasks`,
`costBreakdown`), modelled as opaque references. -/
inductive JSElem where
  | estr (s : String)
  | eobj (ref : Nat)
deriving DecidableEq, Repr

/-- A JavaScript runtime value as it occurs in the engine.  Plain
objects are opaque references. -/
inductive JSVal where
  | undefined
  | vnull
  | vstr (s : String)
  | vnum (q : ℚ)
  | vnan
  | vinf (neg : Bool)
  | vbool (b : Bool)
  | varr (xs : List JSElem)
  | vdate (d : JSDate)
  | vobj (ref : Nat)
deriving DecidableEq, Repr

/-- The result of JavaScript numeric coercion: NaN, an infinity, or a
finite value.  Finite values are exact rationals; the rounding of finite
results to doubles is not modelled. -/
inductive JSNum where
  | nan
  | posInf
  | negInf
  | fin (q : ℚ)
deriving DecidableEq, Repr

/-- Value of a digit string in the given radix (caller checks digits). -/
def natOfRadix (radix : Nat) (cs : List Char) : Nat :=
  cs.foldl (fun n c =>
    n * radix +
      (if c.isDigit then c.toNat - 48
       else if 'a' ≤ c ∧ c ≤ 'f' then c.toNat - 87
       else c.toNat - 55)) 0

/-- Digit test for the given radix (2, 8 or 16; hex also accepts
letters). -/
def isRadixDigit (radix : Nat) (c : Char) : Bool :=
  if radix = 16 then
    c.isDigit ∨ ('a' ≤ c ∧ c ≤ 'f') ∨ ('A' ≤ c ∧ c ≤ 'F')
  else c.isDigit ∧ c.toNat - 48 < radix

/-- Value of a decimal digit string (caller checks the digits). -/
def natOfDigits (cs : List Char) : Nat :=
  natOfRadix 10 cs

/-- `n * 10^k` as an exact rational (`Rat.divInt` for negative `k`). -/
def ratScale (n : Nat) (k : Int) : ℚ :=
  if 0 ≤ k then ((n * 10 ^ k.toNat : Nat) : ℚ)
  else Rat.divInt n (10 ^ (-k).toNat)

/-- The exponent part after `e`/`E`: an optionally signed nonempty digit
string. -/
def jsParseExponent : List Char → Option Int
  | '-' :: ds =>
      if ds ≠ [] ∧ ds.all Char.isDigit then some (-(natOfDigits ds : Int))
      else none
  | '+' :: ds =>
      if ds ≠ [] ∧ ds.all Char.isDigit then some (natOfDigits ds) else none
  | ds => if ds ≠ [] ∧ ds.all Char.isDigit then some (natOfDigits ds) else none

/-- An unsigned decimal literal: digits with at most one dot (at least
one digit), and an optional `e`/`E` exponent. -/
def jsParseDecimalMag (cs : List Char) : Option ℚ :=
  let mant := cs.takeWhile (fun c => c ≠ 'e' ∧ c ≠ 'E')
  let erest := cs.dropWhile (fun c => c ≠ 'e' ∧ c ≠ 'E')
  let expPart : Option Int :=
    match erest with
    | [] => some 0
    | _ :: ecs => jsParseExponent ecs
  match expPart with
  | none => none
  | some e =>
      let before := mant.takeWhile (fun c => c ≠ '.')
      let rest := mant.dropWhile (fun c => c ≠ '.')
      match rest with
      | [] =>
          if mant ≠ [] ∧ mant.all Char.isDigit then
            some (ratScale (natOfDigits mant) e)
          else none
      | _ :: after =>
          if (before ≠ [] ∨ after ≠ []) ∧ before.all Char.isDigit ∧
              after.all Char.isDigit ∧ after.all (fun c => c ≠ '.') then
            some (ratScale (natOfDigits before * 10 ^ after.length +
              natOfDigits after) (e - after.length))
          else none

/-- A signed decimal literal or `Infinity`. -/
def jsParseSigned (t : List Char) : JSNum :=
  let signAndBody : Bool × List Char :=
    match t with
    | '-' :: rest => (true, rest)
    | '+' :: rest => (false, rest)
    | cs => (false, cs)
  let neg := signAndBody.1
  let body := signAndBody.2
  if body = "Infinity".toList then (if neg then .negInf else .posInf)
  else
    match jsParseDecimalMag body with
    | some q => .fin (if neg then -q else q)
    | none => .nan

/-- `Number(string)`, the StringNumericLiteral grammar: blank is `0`;
unsigned `0x`/`0o`/`0b` radix integers; signed `Infinity`; signed
decimals with optional fraction and exponent; anything else NaN. -/
def jsParseNumber (s : String) : JSNum :=
  let t := ((s.toList.dropWhile Char.isWhitespace).reverse.dropWhile
    Char.isWhitespace).reverse
  if t = [] then .fin 0
  else
    match t with
    | '0' :: p :: rest =>
        if p = 'x' ∨ p = 'X' then
          if rest ≠ [] ∧ rest.all (isRadixDigit 16) then
            .fin (natOfRadix 16 rest)
          else .nan
        else if p = 'o' ∨ p = 'O' then
          if rest ≠ [] ∧ rest.all (isRadixDigit 8) then
            .fin (natOfRadix 8 rest)
          else .nan
        else if p = 'b' ∨ p = 'B' then
          if rest ≠ [] ∧ rest.all (isRadixDigit 2) then
            .fin (natOfRadix 2 rest)
          else .nan
        else jsParseSigned t
    | _ => jsParseSigned t

/-- Array element rendering inside `Array.prototype.join` /
`toString`. -/
def jsElemString : JSElem → String
  | .estr s => s
  | .eobj _ => "[object Object]"

/-- `String(v)`.  Non-integer numbers and `Date`s are given an opaque
rendering (JavaScript's is format/locale dependent); integers, strings,
booleans, infinities and arrays (`join(",")`) are rendered
faithfully. -/
def jsToString : JSVal → String
  | .undefined => "undefined"
  | .vnull => "null"
  | .vstr s => s
  | .vnum q => if q.den = 1 then toString q.num else toString q
  | .vnan => "NaN"
  | .vinf neg => if neg then "-Infinity" else "Infinity"
  | .vbool b => if b then "true" else "false"
  | .varr xs => String.intercalate "," (xs.map jsElemString)
  | .vdate d => "Date(" ++ toString d.ms ++ ")"
  | .vobj _ => "[object Object]"

/-- `Number(v)`: JavaScript numeric coercion.  An array coerces through
its `toString` (its `valueOf` returns the object itself); a plain object
stringifies to `[object Object]`, which is NaN; a `Date`'s `valueOf` is
its timestamp. -/
def toNumber : JSVal → JSNum
  | .undefined => .nan
  | .vnull => .fin 0
  | .vstr s => jsParseNumber s
  | .vnum q => .fin q
  | .vnan => .nan
  | .vinf neg => if neg then .negInf else .posInf
  | .vbool b => .fin (if b then 1 else 0)
  | .varr xs => jsParseNumber (String.intercalate "," (xs.map jsElemString))
  | .vdate d => .fin d.ms
  | .vobj _ => .nan

/-- The `<` of JavaScript's abstract relational comparison on coerced
numbers: false whenever one side is NaN. -/
def jsNumLt : JSNum → JSNum → Bool
  | .nan, _ => false
  | _, .nan => false
  | .posInf, _ => false
  | .fin _, .posInf => true
  | .negInf, .posInf => true
  | _, .negInf => false
  | .negInf, .fin _ => true
  | .fin a, .fin b => a < b

/-- `a > b` in JavaScript is the relational comparison with the operands
swapped (NaN still yields false). -/
def jsNumGt (a b : JSNum) : Bool :=
  jsNumLt b a

/-- Strict equality `===`.  No coercion across types; `NaN === x` is
false; `Date`s and plain objects compare by identity; arrays compare by
reference, and the two sides of `===` here always have distinct
provenance (rule store vs. task), hence false. -/
def jsStrictEq : JSVal → JSVal → Bool
  | .undefined, .undefined => true
  | .vnull, .vnull => true
  | .vstr s, .vstr t => s = t
  | .vnum q, .vnum r => q = r
  | .vinf a, .vinf b => a = b
  | .vbool a, .vbool b => a = b
  | .vdate a, .vdate b => a.ref = b.ref
  | .vobj a, .vobj b => a = b
  | _, _ => false

/-- `Array.prototype.includes` compares with SameValueZero: on the
element kinds occurring here (strings and object references) it is
string equality resp. identity. -/
def elemSameValueZero (x : JSElem) (v : JSVal) : Bool :=
  match x, v with
  | .estr s, .vstr t => s = t
  | .eobj a, .vobj b => a = b
  | _, _ => false

/-- `sub` is an initial segment of the second list. -/
def leadsList : List Char → List Char → Bool
  | [], _ => true
  | _ :: _, [] => false
  | a :: as, b :: bs => a = b && leadsList as bs

/-- Contiguous-sublist test on character lists. -/
def hasSubList : List Char → List Char → Bool
  | sub, [] => sub.isEmpty
  | sub, c :: cs => leadsList sub (c :: cs) || hasSubList sub cs

/-- Substring test, `String.prototype.includes`. -/
def jsIncludes (s sub : String) : Bool :=
  hasSubList sub.toList s.toList

/-- `String.prototype.toLowerCase` (the data reaching it in this
application is basic latin, which `Char.toLower` covers). -/
def jsToLower (s : String) : String :=
  String.mk (s.toList.map Char.toLower)

/-- The task record, with every property of `Task` in
`src/src/types.ts`.  Optional (`?:`) fields are `Option`; absent means
`undefined`.  `Date` fields carry identity and timestamp (`JSDate`);
the object-valued collections (`comments`, `attachments`, `checklist`,
`subtasks`, `costBreakdown`) and the `customFields` record are opaque
object references.  The Lean-side defaults only abbreviate record
literals; they encode no TypeScript optionality beyond `Option`. -/
structure Task where
  id : String
  key : Option String := none
  title : String
  description : String
  status : String
  priority : String
  category : String
  tags : List String
  epicId : Option String := none
  sprintId : Option String := none
  jobSiteId : Option String := none
  parentTaskId : Option String := none
  relatedTaskIds : Option (List String) := none
  assignedTo : Option String := none
  createdBy : Option String := none
  reviewers : Option (List String) := none
  createdAt : JSDate := ⟨0, 0⟩
  updatedAt : JSDate := ⟨0, 0⟩
  dueDate : Option JSDate := none
  startDate : Option JSDate := none
  completedAt : Option JSDate := none
  comments : List Nat := []
  attachments : List Nat := []
  checklist : List Nat := []
  subtasks : List Nat := []
  customFields : Nat := 0
  estimatedHours : Option ℚ := none
  completionPercentage : Option ℚ := none
  blockedBy : Option (List String) := none
  isLocked : Option Bool := none
  isFavorite : Option Bool := none
  estimatedCost : Option ℚ := none
  actualCost : Option ℚ := none
  costBreakdown : Option (List Nat) := none
  billable : Option Bool := none
deriving DecidableEq, Repr

/-- An optional string property as a JavaScript value. -/
def optStrVal : Option String → JSVal
  | some s => .vstr s
  | none => .undefined

/-- An optional number property as a JavaScript value. -/
def optNumVal : Option ℚ → JSVal
  | some q => .vnum q
  | none => .undefined

/-- An optional boolean property as a JavaScript value. -/
def optBoolVal : Option Bool → JSVal
  | some b => .vbool b
  | none => .undefined

/-- An optional `Date` property as a JavaScript value. -/
def optDateVal : Option JSDate → JSVal
  | some d => .vdate d
  | none => .undefined

/-- An optional string-array property as a JavaScript value. -/
def optStrArrVal : Option (List String) → JSVal
  | some xs => .varr (xs.map .estr)
  | none => .undefined

/-- An optional object-array property as a JavaScript value. -/
def optObjArrVal : Option (List Nat) → JSVal
  | some xs => .varr (xs.map .eobj)
  | none => .undefined

/-- `RuleConditionItem`.  `field` and `operator` are open strings at
runtime (rule data comes from storage), matching the defensive `switch`
defaults in the engine. -/
structure RuleConditionItem where
  id : String
  field : String
  operator : String
  value : JSVal
deriving DecidableEq, Repr

/-- The `parameters: Record<string, any>` bag of an action, restricted
to the keys the engine reads; `none` means the key is absent
(`undefined`). -/
structure ActionParams where
  status : Option String := none
  priority : Option String := none
  assignedTo : Option String := none
  tag : Option String := none
  message : Option String := none
deriving DecidableEq, Repr

/-- `RuleActionItem`; `action` is an open string at runtime. -/
structure RuleActionItem where
  id : String
  action : String
  parameters : ActionParams
deriving DecidableEq, Repr

/-- `AutomationRule` (`src/src/types.ts`). -/
structure AutomationRule where
  id : String
  name : String
  description : Option String := none
  enabled : Bool
  trigger : String
  conditions : List RuleConditionItem
  actions : List RuleActionItem
  createdAt : Int
  updatedAt : Int
  lastTriggered : Option Int := none
  triggerCount : Nat
deriving DecidableEq, Repr

/-- The `TaskChange` record of the engine module. -/
structure TaskChange where
  oldTask : Option Task
  newTask : Task
  changedFields : List String
deriving DecidableEq, Repr

/-- JavaScript truthiness of an optional string parameter
(`if (parameters.x)`): present and non-empty. -/
def strTruthy : Option String → Bool
  | some s => s ≠ ""
  | none => false

/-- Field lookup inside `evaluateCondition`: the explicit `switch`
cases followed by the dynamic `(task as any)[field]` default, which
resolves the remaining task properties and yields `undefined` for an
unknown name. -/
def getFieldValue (task : Task) (field : String) : JSVal :=
  if field = "status" then .vstr task.status
  else if field = "priority" then .vstr task.priority
  else if field = "category" then .vstr task.category
  else if field = "assignedTo" then optStrVal task.assignedTo
  else if field = "tags" then .varr (task.tags.map .estr)
  else if field = "completionPercentage" then
    optNumVal task.completionPercentage
  else if field = "estimatedHours" then optNumVal task.estimatedHours
  else if field = "id" then .vstr task.id
  else if field = "key" then optStrVal task.key
  else if field = "title" then .vstr task.title
  else if field = "description" then .vstr task.description
  else if field = "epicId" then optStrVal task.epicId
  else if field = "sprintId" then optStrVal task.sprintId
  else if field = "jobSiteId" then optStrVal task.jobSiteId
  else if field = "parentTaskId" then optStrVal task.parentTaskId
  else if field = "relatedTaskIds" then optStrArrVal task.relatedTaskIds
  else if field = "createdBy" then optStrVal task.createdBy
  else if field = "reviewers" then optStrArrVal task.reviewers
  else if field = "createdAt" then .vdate task.createdAt
  else if field = "updatedAt" then .vdate task.updatedAt
  else if field = "dueDate" then optDateVal task.dueDate
  else if field = "startDate" then optDateVal task.startDate
  else if field = "completedAt" then optDateVal task.completedAt
  else if field = "comments" then .varr (task.comments.map .eobj)
  else if field = "attachments" then .varr (task.attachments.map .eobj)
  else if field = "checklist" then .varr (task.checklist.map .eobj)
  else if field = "subtasks" then .varr (task.subtasks.map .eobj)
  else if field = "customFields" then .vobj task.customFields
  else if field = "blockedBy" then optStrArrVal task.blockedBy
  else if field = "isLocked" then optBoolVal task.isLocked
  else if field = "isFavorite" then optBoolVal task.isFavorite
  else if field = "estimatedCost" then optNumVal task.estimatedCost
  else if field = "actualCost" then optNumVal task.actualCost
  else if field = "costBreakdown" then optObjArrVal task.costBreakdown
  else if field = "billable" then optBoolVal task.billable
  else .undefined

/-- `evaluateCondition(task, condition)`. -/
def evaluateCondition (task : Task) (condition : RuleConditionItem) : Bool :=
  let taskValue := getFieldValue task condition.field
  if condition.operator = "equals" then jsStrictEq taskValue condition.value
  else if condition.operator = "not_equals" then !jsStrictEq taskValue condition.value
  else if condition.operator = "greater_than" then
    jsNumGt (toNumber taskValue) (toNumber condition.value)
  else if condition.operator = "less_than" then
    jsNumLt (toNumber taskValue) (toNumber condition.value)
  else if condition.operator = "contains" then
    match taskValue with
    | .varr xs => xs.any (fun x => elemSameValueZero x condition.value)
    | v => jsIncludes (jsToLower (jsToString v)) (jsToLower (jsToString condition.value))
  else false

/-- `evaluateConditions(task, conditions)`: a conjunction (an empty
list is vacuously true). -/
def evaluateConditions (task : Task) (conditions : List RuleConditionItem) : Bool :=
  conditions.all (fun condition => evaluateCondition task condition)

/-- `Partial<Task>` as produced by actions: only these four task fields
can appear as keys; `none` means the key is absent. -/
structure Patch where
  status : Option String := none
  priority : Option String := none
  assignedTo : Option String := none
  tags : Option (List String) := none
deriving DecidableEq, Repr

def emptyPatch : Patch := {}

/-- Spread merge `{...p, ...q}` over the patch keys: keys of `q` win. -/
def mergePatch (p q : Patch) : Patch where
  status := match q.status with | some s => some s | none => p.status
  priority := match q.priority with | some s => some s | none => p.priority
  assignedTo := match q.assignedTo with | some s => some s | none => p.assignedTo
  tags := match q.tags with | some s => some s | none => p.tags

/-- `Object.keys(patch).length > 0`. -/
def patchNonempty (p : Patch) : Bool :=
  p.status.isSome || p.priority.isSome || p.assignedTo.isSome || p.tags.isSome

/-- Spread application `{...task, ...patch}`. -/
def applyPatch (task : Task) (p : Patch) : Task :=
  { task with
    status := p.status.getD task.status
    priority := p.priority.getD task.priority
    assignedTo := match p.assignedTo with | some s => some s | none => task.assignedTo
    tags := p.tags.getD task.tags }

/-- `applyAction(task, action)`: builds the per-action patch.
`send_notification` only logs and leaves the patch empty. -/
def applyAction (task : Task) (action : RuleActionItem) : Patch :=
  let parameters := action.parameters
  if action.action = "set_status" then
    if strTruthy parameters.status then { status := parameters.status } else {}
  else if action.action = "set_priority" then
    if strTruthy parameters.priority then { priority := parameters.priority } else {}
  else if action.action = "assign_to" then
    match parameters.assignedTo with
    | some s => { assignedTo := some s }
    | none => {}
  else if action.action = "add_tag" then
    match parameters.tag with
    | some t =>
        if t ≠ "" then
          if task.tags.contains t then {} else { tags := some (task.tags ++ [t]) }
        else {}
    | none => {}
  else if action.action = "send_notification" then
    {}
  else {}

/-- The per-rule patch fold of the orchestrator: every action reads the
same snapshot `task`; later actions in the rule overwrite keys set by
earlier ones. -/
def foldActions (task : Task) (actions : List RuleActionItem) : Patch :=
  actions.foldl (fun p a => mergePatch p (applyAction task a)) emptyPatch

/-- `hoursUntilDue` inside the `due_date_approaching` case, computed
exactly over ℚ (times in milliseconds): the division
`(dueDate.getTime() - now.getTime()) / (1000 * 60 * 60)`, written with
`Rat.divInt` (see `hoursUntilDue_eq_div`). -/
def hoursUntilDue (now due : Int) : ℚ :=
  Rat.divInt (due - now) (1000 * 60 * 60)

/-- `shouldTriggerRule(rule, change)` with the wall clock `now` passed
explicitly. -/
def shouldTriggerRule (now : Int) (rule : AutomationRule) (change : TaskChange) : Bool :=
  if !rule.enabled then false
  else if rule.trigger = "status_changed" then
    change.changedFields.contains "status" &&
      ((change.oldTask.map Task.status) ≠ some change.newTask.status)
  else if rule.trigger = "priority_changed" then
    change.changedFields.contains "priority" &&
      ((change.oldTask.map Task.priority) ≠ some change.newTask.priority)
  else if rule.trigger = "assigned" then
    change.changedFields.contains "assignedTo" &&
      ((change.oldTask.bind Task.assignedTo) ≠ change.newTask.assignedTo) &&
      strTruthy change.newTask.assignedTo
  else if rule.trigger = "created" then
    change.oldTask.isNone
  else if rule.trigger = "due_date_approaching" then
    match change.newTask.dueDate with
    | some due =>
        0 < hoursUntilDue now due.ms ∧ hoursUntilDue now due.ms ≤ 24
    | none => false
  else false

/-- The fixed watched-field list of `getChangedFields`. -/
def fieldsToCheck : List String :=
  ["status", "priority", "category", "assignedTo", "dueDate", "startDate",
   "completionPercentage", "estimatedHours", "title", "description"]

/-- `(oldTask as any)[field] !== (newTask as any)[field]` for the
watched fields: value inequality on the primitive-valued fields, but
object identity on the `Date`-valued `dueDate` and `startDate`
(`undefined !== undefined` is false, so only the `ref`s are compared
when both are present). -/
def fieldDiffers (oldTask newTask : Task) (field : String) : Bool :=
  if field = "status" then oldTask.status ≠ newTask.status
  else if field = "priority" then oldTask.priority ≠ newTask.priority
  else if field = "category" then oldTask.category ≠ newTask.category
  else if field = "assignedTo" then oldTask.assignedTo ≠ newTask.assignedTo
  else if field = "dueDate" then
    oldTask.dueDate.map JSDate.ref ≠ newTask.dueDate.map JSDate.ref
  else if field = "startDate" then
    oldTask.startDate.map JSDate.ref ≠ newTask.startDate.map JSDate.ref
  else if field = "completionPercentage" then
    oldTask.completionPercentage ≠ newTask.completionPercentage
  else if field = "estimatedHours" then oldTask.estimatedHours ≠ newTask.estimatedHours
  else if field = "title" then oldTask.title ≠ newTask.title
  else if field = "description" then oldTask.description ≠ newTask.description
  else false

/-- `getChangedFields(oldTask, newTask)`: the `created` sentinel for a
fresh task, otherwise the watched fields that differ (in list order). -/
def getChangedFields (oldTask : Option Task) (newTask : Task) : List String :=
  match oldTask with
  | none => ["created"]
  | some o => fieldsToCheck.filter (fun field => fieldDiffers o newTask field)

/-- Stable insertion into a `createdAt`-sorted list (ties keep the
original order, as JavaScript's stable `sort` with the
`a.createdAt - b.createdAt` comparator does). -/
def insertByCreatedAt (r : AutomationRule) : List AutomationRule → List AutomationRule
  | [] => [r]
  | x :: xs =>
      if r.createdAt ≤ x.createdAt then r :: x :: xs else x :: insertByCreatedAt r xs

/-- `[...rules].sort((a, b) => a.createdAt - b.createdAt)`: stable sort
ascending by creation time. -/
def sortByCreatedAt (rules : List AutomationRule) : List AutomationRule :=
  rules.foldr insertByCreatedAt []

/-- The loop body of `executeAutomationRules`: skip unless the trigger
matches and the conditions hold on the current snapshot, fold the
actions into one patch, and apply it — recording the rule id — only when
the patch is non-empty. -/
def runRule (now : Int) (change : TaskChange) (st : Task × List String)
    (rule : AutomationRule) : Task × List String :=
  if !shouldTriggerRule now rule change then st
  else if !evaluateConditions st.1 rule.conditions then st
  else
    let ruleUpdates := foldActions st.1 rule.actions
    if patchNonempty ruleUpdates then
      (applyPatch st.1 ruleUpdates, st.2 ++ [rule.id])
    else st

/-- `executeAutomationRules(oldTask, newTask, rules)`: returns the
patched task and the ids of the rules that fired, in firing order. -/
def executeAutomationRules (now : Int) (oldTask : Option Task) (newTask : Task)
    (rules : List AutomationRule) : Task × List String :=
  let changedFields := getChangedFields oldTask newTask
  let change : TaskChange := ⟨oldTask, newTask, changedFields⟩
  (sortByCreatedAt rules).foldl (runRule now change) (newTask, [])

/-- `updateRuleTriggerCount(rules, triggeredRuleIds)` with the wall
clock `now` passed explicitly. -/
def updateRuleTriggerCount (now : Int) (rules : List AutomationRule)
    (triggeredRuleIds : List String) : List AutomationRule :=
  if triggeredRuleIds.isEmpty then rules
  else rules.map (fun rule =>
    if triggeredRuleIds.contains rule.id then
      { rule with
        triggerCount := rule.triggerCount + 1
        lastTriggered := some now
        updatedAt := now }
    else rule)

/-! ### Reformulations used to settle the claims -/

/-- The condition/action stage of the orchestrator loop body, with the
trigger test factored out. -/
def runMatchedRule (st : Task × List String) (rule : AutomationRule) :
    Task × List String :=
  if !evaluateConditions st.1 rule.conditions then st
  else
    let ruleUpdates := foldActions st.1 rule.actions
    if patchNonempty ruleUpdates then
      (applyPatch st.1 ruleUpdates, st.2 ++ [rule.id])
    else st

/-- Modelled from the spec's words (§4.6 step 4a,
`matches(rule, oldTask, current, changeSet)`), for comparison with the
source: the orchestrator variant whose trigger match reads the current
working snapshot instead of the pass-initial `newTask`. -/
def runRuleSpecMatch (now : Int) (oldTask : Option Task)
    (changedFields : List String) (st : Task × List String)
    (rule : AutomationRule) : Task × List String :=
  if !shouldTriggerRule now rule ⟨oldTask, st.1, changedFields⟩ then st
  else runMatchedRule st rule

/-- Modelled from the spec's words: `executeAutomationRules` with the
trigger match computed against the current working snapshot. -/
def executeAutomationRulesSpecMatch (now : Int) (oldTask : Option Task)
    (newTask : Task) (rules : List AutomationRule) : Task × List String :=
  (sortByCreatedAt rules).foldl
    (runRuleSpecMatch now oldTask (getChangedFields oldTask newTask)) (newTask, [])

/-- The field names the engine's field lookup resolves: the explicit
`switch` cases plus every `Task` property of `src/src/types.ts` reached
by the dynamic `(task as any)[field]` default. -/
def knownFieldNames : List String :=
  ["status", "priority", "category", "assignedTo", "tags",
   "completionPercentage", "estimatedHours", "id", "key", "title",
   "description", "epicId", "sprintId", "jobSiteId", "parentTaskId",
   "relatedTaskIds", "createdBy", "reviewers", "createdAt", "updatedAt",
   "dueDate", "startDate", "completedAt", "comments", "attachments",
   "checklist", "subtasks", "customFields", "blockedBy", "isLocked",
   "isFavorite", "estimatedCost", "actualCost", "costBreakdown", "billable"]

/-- The operator names with a `switch` case in `evaluateCondition`. -/
def knownOperators : List String :=
  ["equals", "not_equals", "greater_than", "less_than", "contains"]

/-- The trigger kinds with a `switch` case in `shouldTriggerRule`. -/
def knownTriggers : List String :=
  ["status_changed", "priority_changed", "assigned", "created",
   "due_date_approaching"]

/-- The action kinds with a `switch` case in `applyAction`. -/
def knownActions : List String :=
  ["set_status", "set_priority", "assign_to", "add_tag", "send_notification"]

/-- Every task field outside the patchable four (`status`, `priority`,
`assignedTo`, `tags`), bundled for the frame theorem. -/
def frameOf (t : Task) :=
  (t.id, t.key, t.title, t.description, t.category, t.epicId, t.sprintId,
   t.jobSiteId, t.parentTaskId, t.relatedTaskIds, t.createdBy, t.reviewers,
   t.createdAt, t.updatedAt, t.dueDate, t.startDate, t.completedAt,
   t.comments, t.attachments, t.checklist, t.subtasks, t.customFields,
   t.estimatedHours, t.completionPercentage, t.blockedBy, t.isLocked,
   t.isFavorite, t.estimatedCost, t.actualCost, t.costBreakdown, t.billable)

/-! ### Concrete data for counterexamples and witnesses -/

/-- A plain task used as the base of the concrete evaluations. -/
def baseTask : Task :=
  { id := "task-1", title := "Prepare report", description := "Quarterly report",
    status := "todo", priority := "low", category := "work", tags := [],
    createdAt := ⟨1, 0⟩, updatedAt := ⟨2, 0⟩ }

/-- A rule whose only action is `send_notification` (claim C1). -/
def notifOnlyRule : AutomationRule :=
  { id := "r-notif", name := "notify", enabled := true, trigger := "created",
    conditions := [],
    actions := [{ id := "a-n", action := "send_notification",
                  parameters := { message := some "task created" } }],
    createdAt := 0, updatedAt := 0, triggerCount := 0 }

/-- Claim C2: the old snapshot, in status `todo`. -/
def oldTaskC2 : Task := baseTask

/-- Claim C2: the new snapshot, moved to status `in-progress`. -/
def newTaskC2 : Task := { baseTask with status := "in-progress" }

/-- Claim C2: the earlier rule, reverting the status to `todo`. -/
def revertRuleC2 : AutomationRule :=
  { id := "r1", name := "revert", enabled := true, trigger := "status_changed",
    conditions := [],
    actions := [{ id := "a-r", action := "set_status",
                  parameters := { status := some "todo" } }],
    createdAt := 0, updatedAt := 0, triggerCount := 0 }

/-- Claim C2: the later rule, raising the priority on a status change. -/
def raiseRuleC2 : AutomationRule :=
  { id := "r2", name := "raise", enabled := true, trigger := "status_changed",
    conditions := [],
    actions := [{ id := "a-p", action := "set_priority",
                  parameters := { priority := some "high" } }],
    createdAt := 1, updatedAt := 1, triggerCount := 0 }

/-- Claim C3: a rule with bookkeeping fields populated. -/
def ruleC3 : AutomationRule :=
  { id := "c3", name := "bump", enabled := true, trigger := "created",
    conditions := [], actions := [], createdAt := 0, updatedAt := 5,
    lastTriggered := none, triggerCount := 7 }

/-- Claim C5: the earlier rule, moving a fresh task to `in-progress`. -/
def starterRuleC5 : AutomationRule :=
  { id := "r5a", name := "start", enabled := true, trigger := "created",
    conditions := [],
    actions := [{ id := "a-s", action := "set_status",
                  parameters := { status := some "in-progress" } }],
    createdAt := 0, updatedAt := 0, triggerCount := 0 }

/-- Claim C5: the later rule, whose condition reads the status the
earlier rule sets. -/
def escalateRuleC5 : AutomationRule :=
  { id := "r5b", name := "escalate", enabled := true, trigger := "created",
    conditions := [{ id := "c-s", field := "status", operator := "equals",
                     value := .vstr "in-progress" }],
    actions := [{ id := "a-e", action := "set_priority",
                  parameters := { priority := some "high" } }],
    createdAt := 1, updatedAt := 1, triggerCount := 0 }

/-- Claim C6: an enabled `due_date_approaching` rule. -/
def dueSoonRule : AutomationRule :=
  { id := "r-due", name := "due soon", enabled := true,
    trigger := "due_date_approaching", conditions := [], actions := [],
    createdAt := 0, updatedAt := 0, triggerCount := 0 }

/-- Claim C6: a task due exactly 24 hours after time 0. -/
def dueTaskC6 : Task := { baseTask with dueDate := some ⟨3, 86400000⟩ }

/-- Claim C4: an old snapshot whose due date object denotes 5000ms. -/
def oldTaskC4 : Task := { baseTask with dueDate := some ⟨10, 5000⟩ }

/-- Claim C4: a new snapshot carrying a distinct `Date` object that
denotes the same instant as the old one. -/
def newTaskC4 : Task := { baseTask with dueDate := some ⟨11, 5000⟩ }

/-- Claim C7: a disabled rule that would otherwise fire on creation. -/
def disabledRuleC7 : AutomationRule :=
  { id := "c7", name := "disabled", enabled := false, trigger := "created",
    conditions := [],
    actions := [{ id := "a-d", action := "set_priority",
                  parameters := { priority := some "urgent" } }],
    createdAt := 0, updatedAt := 0, triggerCount := 0 }

/-- Claim C8: a rule whose only action adds the tag `completed`. -/
def tagRuleC8 : AutomationRule :=
  { id := "r8", name := "tag", enabled := true, trigger := "created",
    conditions := [],
    actions := [{ id := "a-t", action := "add_tag",
                  parameters := { tag := some "completed" } }],
    createdAt := 0, updatedAt := 0, triggerCount := 0 }

/-- Claim C9: a condition on an unknown field with `not_equals`. -/
def bogusFieldCondition : RuleConditionItem :=
  { id := "c9", field := "bogus_field", operator := "not_equals",
    value := .vstr "x" }

/-- Claim C9: a rule with an unknown trigger kind. -/
def strangeTriggerRuleC9 : AutomationRule :=
  { id := "c9r", name := "strange", enabled := true, trigger := "strange_kind",
    conditions := [], actions := [], createdAt := 0, updatedAt := 0,
    triggerCount := 0 }

/-- Claim C9: an action with an unknown kind. -/
def strangeActionC9 : RuleActionItem :=
  { id := "c9a", action := "explode", parameters := {} }

end TaskFlow

/-! ### Helper lemmas -/

namespace TaskFlow

/-- `hoursUntilDue` is the exact rational division of the remaining
milliseconds by one hour. -/
theorem hoursUntilDue_eq_div (now due : Int) :
    hoursUntilDue now due = ((due - now : Int) : ℚ) / (1000 * 60 * 60) := by
  rw [hoursUntilDue, Rat.divInt_eq_div]
  norm_num

/-- The loop body is the trigger test followed by the condition/action
stage. -/
theorem runRule_eq (now : Int) (change : TaskChange) (st : Task × List String)
    (rule : AutomationRule) :
    runRule now change st rule =
      if shouldTriggerRule now rule change then runMatchedRule st rule else st := by
  unfold runRule runMatchedRule
  cases shouldTriggerRule now rule change <;> simp

theorem mergePatch_empty_right (p : Patch) : mergePatch p emptyPatch = p := rfl

/-- The relational comparison is false against NaN on the right. -/
theorem jsNumLt_nan_right (x : JSNum) : jsNumLt x .nan = false := by
  cases x <;> rfl

/-- The relational comparison is false against NaN on the left. -/
theorem jsNumLt_nan_left (x : JSNum) : jsNumLt .nan x = false := by
  cases x <;> rfl

theorem applyAction_notif (task : Task) (a : RuleActionItem)
    (h : a.action = "send_notification") : applyAction task a = emptyPatch := by
  simp [applyAction, h, emptyPatch]

theorem foldActions_notif (task : Task) :
    ∀ (actions : List RuleActionItem),
      (∀ a ∈ actions, a.action = "send_notification") →
      foldActions task actions = emptyPatch
  | [], _ => rfl
  | a :: as, h => by
      have ha : applyAction task a = emptyPatch :=
        applyAction_notif task a (h a (List.mem_cons_self a as))
      have hs : foldActions task as = emptyPatch :=
        foldActions_notif task as (fun x hx => h x (List.mem_cons_of_mem a hx))
      simpa [foldActions, ha, mergePatch_empty_right] using hs

theorem sortByCreatedAt_singleton (r : AutomationRule) :
    sortByCreatedAt [r] = [r] := rfl

theorem sortByCreatedAt_pair (r1 r2 : AutomationRule)
    (h : r1.createdAt ≤ r2.createdAt) :
    sortByCreatedAt [r1, r2] = [r1, r2] := by
  simp [sortByCreatedAt, insertByCreatedAt, h]

theorem mem_insertByCreatedAt (x r : AutomationRule) :
    ∀ (l : List AutomationRule), x ∈ insertByCreatedAt r l ↔ x = r ∨ x ∈ l
  | [] => by simp [insertByCreatedAt]
  | y :: ys => by
      unfold insertByCreatedAt
      by_cases h : r.createdAt ≤ y.createdAt
      · simp [h]
      · simp only [h, if_false, List.mem_cons, mem_insertByCreatedAt x r ys]
        tauto

theorem mem_sortByCreatedAt (x : AutomationRule) :
    ∀ (l : List AutomationRule), x ∈ sortByCreatedAt l ↔ x ∈ l
  | [] => Iff.rfl
  | y :: ys => by
      have ih := mem_sortByCreatedAt x ys
      simp only [sortByCreatedAt, List.foldr_cons] at *
      rw [mem_insertByCreatedAt, ih, List.mem_cons]

/-- The id list grows by at most the current rule's id, and only when
the trigger matched. -/
theorem mem_snd_runRule (now : Int) (change : TaskChange)
    (st : Task × List String) (rule : AutomationRule) (i : String)
    (h : i ∈ (runRule now change st rule).2) :
    i ∈ st.2 ∨ (i = rule.id ∧ shouldTriggerRule now rule change = true) := by
  rw [runRule_eq] at h
  by_cases ht : shouldTriggerRule now rule change
  · rw [if_pos ht] at h
    unfold runMatchedRule at h
    by_cases hc : evaluateConditions st.1 rule.conditions
    · simp only [hc, Bool.not_true, Bool.false_eq_true, if_false] at h
      by_cases hp2 : patchNonempty (foldActions st.1 rule.actions)
      · simp only [hp2, if_true] at h
        rcases List.mem_append.mp h with h1 | h1
        · exact Or.inl h1
        · exact Or.inr ⟨List.mem_singleton.mp h1, ht⟩
      · simp only [hp2, Bool.false_eq_true, if_false] at h
        exact Or.inl h
    · simp only [Bool.not_eq_true] at hc
      simp only [hc, Bool.not_false, if_true] at h
      exact Or.inl h
  · rw [if_neg ht] at h
    exact Or.inl h

end TaskFlow

namespace TaskFlow

/-- Fold invariant: an id that no rule of the list can contribute never
enters the fired list. -/
theorem foldl_runRule_not_fired (now : Int) (change : TaskChange) :
    ∀ (l : List AutomationRule) (st : Task × List String) (i : String),
      i ∉ st.2 →
      (∀ r ∈ l, r.id = i → shouldTriggerRule now r change = false) →
      i ∉ (l.foldl (runRule now change) st).2
  | [], _, _, hst, _ => hst
  | r :: l, st, i, hst, hl => by
      rw [List.foldl_cons]
      refine foldl_runRule_not_fired now change l (runRule now change st r) i ?_
        (fun x hx => hl x (List.mem_cons_of_mem r hx))
      intro hmem
      rcases mem_snd_runRule now change st r i hmem with h1 | ⟨rfl, h2⟩
      · exact hst h1
      · rw [hl r (List.mem_cons_self r l) rfl] at h2
        exact Bool.false_ne_true h2

/-- The trigger decision of every rule in the pass is a function of the
pass-initial change only, so the loop equals a pre-filter by the trigger
followed by the condition/action stage. -/
theorem foldl_runRule_eq_filter (now : Int) (change : TaskChange) :
    ∀ (l : List AutomationRule) (st : Task × List String),
      l.foldl (runRule now change) st =
        (l.filter (fun r => shouldTriggerRule now r change)).foldl
          runMatchedRule st
  | [], _ => rfl
  | r :: l, st => by
      by_cases h : shouldTriggerRule now r change
      · simp [List.foldl_cons, List.filter_cons, h, runRule_eq,
          foldl_runRule_eq_filter now change l]
      · simp [List.foldl_cons, List.filter_cons, h, runRule_eq,
          foldl_runRule_eq_filter now change l]

theorem frameOf_applyPatch (t : Task) (p : Patch) :
    frameOf (applyPatch t p) = frameOf t := rfl

theorem frameOf_runMatchedRule (st : Task × List String)
    (rule : AutomationRule) :
    frameOf (runMatchedRule st rule).1 = frameOf st.1 := by
  unfold runMatchedRule
  by_cases hc : evaluateConditions st.1 rule.conditions
  · by_cases hp : patchNonempty (foldActions st.1 rule.actions)
    · simp [hc, hp, frameOf_applyPatch]
    · simp [hc, hp]
  · simp [hc]

theorem frameOf_runRule (now : Int) (change : TaskChange)
    (st : Task × List String) (rule : AutomationRule) :
    frameOf (runRule now change st rule).1 = frameOf st.1 := by
  rw [runRule_eq]
  by_cases ht : shouldTriggerRule now rule change
  · rw [if_pos ht, frameOf_runMatchedRule]
  · rw [if_neg ht]

theorem frameOf_foldl_runRule (now : Int) (change : TaskChange) :
    ∀ (l : List AutomationRule) (st : Task × List String),
      frameOf ((l.foldl (runRule now change) st).1) = frameOf st.1
  | [], _ => rfl
  | r :: l, st => by
      rw [List.foldl_cons,
        frameOf_foldl_runRule now change l (runRule now change st r),
        frameOf_runRule]

/-- Pairs of a list zipped with its own image are graph pairs. -/
theorem zip_map_pair {α : Type} [DecidableEq α] (f : α → α) :
    ∀ (l : List α) (a b : α), (a, b) ∈ l.zip (l.map f) → b = f a
  | [], _, _, h => absurd h (List.not_mem_nil _)
  | x :: xs, a, b, h => by
      rw [List.map_cons, List.zip_cons_cons] at h
      rcases List.mem_cons.mp h with h1 | h1
      · obtain ⟨rfl, rfl⟩ := Prod.mk.injEq .. ▸ (Prod.mk.injEq a b x (f x) ▸ h1)
        exact rfl
      · exact zip_map_pair f xs a b h1

end TaskFlow

/-! ### Claim theorems -/

namespace TaskFlow

theorem mergePatch_empty_left (p : Patch) : mergePatch emptyPatch p = p := by
  cases p with
  | mk s pr a tg =>
      cases s <;> cases pr <;> cases a <;> cases tg <;> rfl

/-- C1, counterexample: a rule whose only action is `send_notification`
has a matching trigger and vacuously true conditions, yet its id is NOT
appended to the fired-rule list — the folded patch is empty, and the
engine records only non-empty patches.  The claim requires the id to be
recorded. -/
theorem C1_claim_counterexample :
    shouldTriggerRule 0 notifOnlyRule
      ⟨none, baseTask, getChangedFields none baseTask⟩ = true ∧
    evaluateConditions baseTask notifOnlyRule.conditions = true ∧
    (∀ a ∈ notifOnlyRule.actions, a.action = "send_notification") ∧
    (executeAutomationRules 0 none baseTask [notifOnlyRule]).2 = [] := by
  refine ⟨by decide, by decide, by decide, by decide⟩

/-- C1, amended: for a rule whose trigger matches and whose conditions
hold on the current snapshot, the rule's id is appended iff the patch
folded from its actions assigns at least one field (even if the assigned
value equals the current one); `send_notification` contributes no field
assignment, so a rule whose actions are all `send_notification` leaves
the state unchanged and is not recorded as fired. -/
theorem C1_fired_iff_patch_nonempty (now : Int) (change : TaskChange)
    (st : Task × List String) (rule : AutomationRule)
    (htrig : shouldTriggerRule now rule change = true)
    (hcond : evaluateConditions st.1 rule.conditions = true) :
    ((runRule now change st rule).2 = st.2 ++ [rule.id] ↔
      patchNonempty (foldActions st.1 rule.actions) = true) ∧
    ((∀ a ∈ rule.actions, a.action = "send_notification") →
      runRule now change st rule = st) := by
  have hrr : runRule now change st rule =
      if patchNonempty (foldActions st.1 rule.actions) then
        (applyPatch st.1 (foldActions st.1 rule.actions), st.2 ++ [rule.id])
      else st := by
    rw [runRule_eq, if_pos htrig]
    unfold runMatchedRule
    rw [hcond]
    simp
  constructor
  · constructor
    · intro h
      by_contra hp
      rw [Bool.not_eq_true] at hp
      rw [hrr, if_neg (by simp [hp])] at h
      have hlen := congrArg List.length h
      simp at hlen
    · intro hp
      rw [hrr, if_pos hp]
  · intro hall
    rw [hrr, foldActions_notif st.1 rule.actions hall]
    simp [patchNonempty, emptyPatch]

/-- C1 witness: the amended theorem applied to the concrete
`send_notification`-only rule. -/
theorem C1_fired_iff_patch_nonempty_witness :
    shouldTriggerRule 0 notifOnlyRule ⟨none, baseTask, ["created"]⟩ = true ∧
    evaluateConditions baseTask notifOnlyRule.conditions = true ∧
    runRule 0 ⟨none, baseTask, ["created"]⟩ (baseTask, []) notifOnlyRule =
      (baseTask, []) :=
  ⟨by decide, by decide,
    (C1_fired_iff_patch_nonempty 0 ⟨none, baseTask, ["created"]⟩ (baseTask, [])
      notifOnlyRule (by decide) (by decide)).2 (by decide)⟩

/-- C2, counterexample: the earlier rule reverts the status, after which
the later rule's `status_changed` trigger is false against the current
working snapshot — yet the engine still fires it, because the trigger
match reads the pass-initial `newTask`.  The spec-worded variant (match
against the current snapshot) fires only the first rule. -/
theorem C2_claim_counterexample :
    (executeAutomationRules 0 (some oldTaskC2) newTaskC2
      [revertRuleC2, raiseRuleC2]).2 = ["r1", "r2"] ∧
    shouldTriggerRule 0 raiseRuleC2
      ⟨some oldTaskC2,
        (executeAutomationRules 0 (some oldTaskC2) newTaskC2 [revertRuleC2]).1,
        getChangedFields (some oldTaskC2) newTaskC2⟩ = false ∧
    (executeAutomationRulesSpecMatch 0 (some oldTaskC2) newTaskC2
      [revertRuleC2, raiseRuleC2]).2 = ["r1"] := by
  refine ⟨by decide, by decide, by decide⟩

/-- C2, amended: the trigger match of every rule in the pass is computed
from the pass-initial `(oldTask, newTask, changeSet)` alone — an earlier
rule's patch is NOT visible to a later rule's trigger matching (it is
visible to condition evaluation and action application): the pass equals
a pre-filter by the fixed trigger decision followed by the
condition/action stage threading the working snapshot. -/
theorem C2_trigger_match_uses_initial_snapshot (now : Int)
    (oldTask : Option Task) (newTask : Task) (rules : List AutomationRule) :
    executeAutomationRules now oldTask newTask rules =
      ((sortByCreatedAt rules).filter (fun r =>
        shouldTriggerRule now r
          ⟨oldTask, newTask, getChangedFields oldTask newTask⟩)).foldl
        runMatchedRule (newTask, []) := by
  unfold executeAutomationRules
  exact foldl_runRule_eq_filter now _ (sortByCreatedAt rules) (newTask, [])

/-- C3, counterexample: `updateRuleTriggerCount` also overwrites the
fired rule's `updatedAt` with the evaluation time, so it is false that
every field other than `triggerCount` and `lastTriggered` is
unchanged. -/
theorem C3_claim_counterexample :
    (updateRuleTriggerCount 100 [ruleC3] ["c3"]).map AutomationRule.updatedAt =
      [100] ∧
    ruleC3.updatedAt = 5 := by
  refine ⟨by decide, by decide⟩

/-- C3, amended: each rule whose id appears in the fired list has its
`triggerCount` incremented and its `lastTriggered` AND `updatedAt` set
to the evaluation time, with all its remaining fields unchanged; every
other rule is returned unchanged. -/
theorem C3_update_rule_bookkeeping (now : Int) (rules : List AutomationRule)
    (ids : List String) :
    (updateRuleTriggerCount now rules ids).length = rules.length ∧
    ∀ r r2, (r, r2) ∈ rules.zip (updateRuleTriggerCount now rules ids) →
      (ids.contains r.id = true →
        r2.triggerCount = r.triggerCount + 1 ∧ r2.lastTriggered = some now ∧
        r2.updatedAt = now ∧ r2.id = r.id ∧ r2.name = r.name ∧
        r2.description = r.description ∧ r2.enabled = r.enabled ∧
        r2.trigger = r.trigger ∧ r2.conditions = r.conditions ∧
        r2.actions = r.actions ∧ r2.createdAt = r.createdAt) ∧
      (ids.contains r.id = false → r2 = r) := by
  by_cases hemp : ids.isEmpty
  · have hids : ids = [] := List.isEmpty_iff.mp hemp
    subst hids
    have hre : updateRuleTriggerCount now rules [] = rules := rfl
    rw [hre]
    refine ⟨rfl, fun r r2 hm => ⟨fun hc => ?_, fun _ => ?_⟩⟩
    · exact absurd hc Bool.false_ne_true
    · have hzz : rules.zip rules = rules.zip (rules.map id) := by rw [List.map_id]
      rw [hzz] at hm
      exact zip_map_pair id rules r r2 hm
  · rw [updateRuleTriggerCount, if_neg hemp]
    refine ⟨by rw [List.length_map], fun r r2 hm => ?_⟩
    have hr2 := zip_map_pair _ rules r r2 hm
    constructor
    · intro hc
      rw [hr2, if_pos hc]
      exact ⟨rfl, rfl, rfl, rfl, rfl, rfl, rfl, rfl, rfl, rfl, rfl⟩
    · intro hc
      rw [hr2, if_neg (by rw [hc]; exact Bool.false_ne_true)]

/-- C3 witness: the amended theorem applied to the concrete rule fired
at time 100. -/
theorem C3_update_rule_bookkeeping_witness :
    ((ruleC3,
        ({ ruleC3 with
             triggerCount := 8
             lastTriggered := some 100
             updatedAt := 100 } : AutomationRule)) ∈
      [ruleC3].zip (updateRuleTriggerCount 100 [ruleC3] ["c3"])) ∧
    (["c3"].contains ruleC3.id = true) ∧
    ({ ruleC3 with
         triggerCount := 8
         lastTriggered := some 100
         updatedAt := 100 } : AutomationRule).triggerCount =
      ruleC3.triggerCount + 1 :=
  ⟨by decide, by decide,
    (((C3_update_rule_bookkeeping 100 [ruleC3] ["c3"]).2 ruleC3
      ({ ruleC3 with
           triggerCount := 8
           lastTriggered := some 100
           updatedAt := 100 }) (by decide)).1 (by decide)).1⟩

/-- C4, counterexample: two snapshots whose due dates are distinct
`Date` objects denoting the same instant — `!==` compares object
identity, so the code reports `dueDate` as changed although the values
are equal under value equality, which the claim forbids. -/
theorem C4_claim_counterexample :
    oldTaskC4.dueDate.map JSDate.ms = newTaskC4.dueDate.map JSDate.ms ∧
    "dueDate" ∈ getChangedFields (some oldTaskC4) newTaskC4 := by
  refine ⟨by decide, by decide⟩

set_option maxHeartbeats 2000000 in
/-- C4, amended: the change detector returns exactly the `created`
sentinel when the old task is absent; otherwise a field name is reported
iff it is one of the ten watched fields and its old and new values
differ under `!==` — value inequality for the eight primitive-valued
fields, but object identity for the `Date`-valued `dueDate` and
`startDate` (value-equal but distinct `Date` objects are reported as
changed) — and no field outside that list is ever reported. -/
theorem C4_change_detector (oldTask newTask : Task) :
    getChangedFields none newTask = ["created"] ∧
    ∀ f : String, f ∈ getChangedFields (some oldTask) newTask ↔
      ((f = "status" ∧ oldTask.status ≠ newTask.status) ∨
       (f = "priority" ∧ oldTask.priority ≠ newTask.priority) ∨
       (f = "category" ∧ oldTask.category ≠ newTask.category) ∨
       (f = "assignedTo" ∧ oldTask.assignedTo ≠ newTask.assignedTo) ∨
       (f = "dueDate" ∧
         oldTask.dueDate.map JSDate.ref ≠ newTask.dueDate.map JSDate.ref) ∨
       (f = "startDate" ∧
         oldTask.startDate.map JSDate.ref ≠ newTask.startDate.map JSDate.ref) ∨
       (f = "completionPercentage" ∧
         oldTask.completionPercentage ≠ newTask.completionPercentage) ∨
       (f = "estimatedHours" ∧
         oldTask.estimatedHours ≠ newTask.estimatedHours) ∨
       (f = "title" ∧ oldTask.title ≠ newTask.title) ∨
       (f = "description" ∧ oldTask.description ≠ newTask.description)) := by
  refine ⟨rfl, fun f => ?_⟩
  simp only [getChangedFields, List.mem_filter, fieldsToCheck, List.mem_cons,
    List.not_mem_nil, or_false]
  constructor
  · rintro ⟨hmem, hdiff⟩
    rcases hmem with rfl | rfl | rfl | rfl | rfl | rfl | rfl | rfl | rfl | rfl <;>
      simp [fieldDiffers] at hdiff <;> tauto
  · rintro (⟨rfl, h⟩ | ⟨rfl, h⟩ | ⟨rfl, h⟩ | ⟨rfl, h⟩ | ⟨rfl, h⟩ | ⟨rfl, h⟩ |
      ⟨rfl, h⟩ | ⟨rfl, h⟩ | ⟨rfl, h⟩ | ⟨rfl, h⟩) <;>
      exact ⟨by simp, by simpa [fieldDiffers] using h⟩

end TaskFlow

namespace TaskFlow

theorem contains_eq_false_of_not_mem {l : List String} {x : String}
    (h : x ∉ l) : l.contains x = false := by
  cases hc : l.contains x
  · rfl
  · exact absurd (by simpa using hc) h

theorem contains_eq_true_of_mem {l : List String} {x : String}
    (h : x ∈ l) : l.contains x = true := by
  simpa using h

/-- C5: when two rules both trigger and the earlier-created one fires
with a non-empty patch, the later rule's condition/action stage runs on
the working snapshot that already contains the earlier rule's patch; in
particular the later rule fires iff its conditions hold on that patched
snapshot and its own folded patch is non-empty. -/
theorem C5_later_rule_sees_earlier_patch (now : Int) (oldTask : Option Task)
    (newTask : Task) (r1 r2 : AutomationRule)
    (horder : r1.createdAt < r2.createdAt) (hid : r1.id ≠ r2.id)
    (ht1 : shouldTriggerRule now r1
      ⟨oldTask, newTask, getChangedFields oldTask newTask⟩ = true)
    (ht2 : shouldTriggerRule now r2
      ⟨oldTask, newTask, getChangedFields oldTask newTask⟩ = true)
    (hc1 : evaluateConditions newTask r1.conditions = true)
    (hp1 : patchNonempty (foldActions newTask r1.actions) = true) :
    executeAutomationRules now oldTask newTask [r1, r2] =
      runMatchedRule
        (applyPatch newTask (foldActions newTask r1.actions), [r1.id]) r2 ∧
    (r2.id ∈ (executeAutomationRules now oldTask newTask [r1, r2]).2 ↔
      (evaluateConditions
          (applyPatch newTask (foldActions newTask r1.actions)) r2.conditions
            = true ∧
       patchNonempty (foldActions
          (applyPatch newTask (foldActions newTask r1.actions)) r2.actions)
            = true)) := by
  have hexec : executeAutomationRules now oldTask newTask [r1, r2] =
      runMatchedRule
        (applyPatch newTask (foldActions newTask r1.actions), [r1.id]) r2 := by
    unfold executeAutomationRules
    rw [sortByCreatedAt_pair r1 r2 (le_of_lt horder)]
    rw [List.foldl_cons, List.foldl_cons, List.foldl_nil]
    have h1 : runRule now ⟨oldTask, newTask, getChangedFields oldTask newTask⟩
        (newTask, []) r1 =
        (applyPatch newTask (foldActions newTask r1.actions), [r1.id]) := by
      rw [runRule_eq, if_pos ht1]
      simp [runMatchedRule, hc1, hp1]
    rw [h1, runRule_eq, if_pos ht2]
  refine ⟨hexec, ?_⟩
  rw [hexec]
  unfold runMatchedRule
  by_cases hc2 : evaluateConditions
      (applyPatch newTask (foldActions newTask r1.actions)) r2.conditions
  · by_cases hp2 : patchNonempty (foldActions
        (applyPatch newTask (foldActions newTask r1.actions)) r2.actions)
    · simp [hc2, hp2]
    · simp [hc2, hp2, hid.symm]
  · simp [hc2, hid.symm]

/-- C5 witness: on a fresh task, the first rule moves the status to
`in-progress` and the second rule, whose condition reads exactly that
status, fires in the same pass. -/
theorem C5_later_rule_sees_earlier_patch_witness :
    starterRuleC5.createdAt < escalateRuleC5.createdAt ∧
    "r5b" ∈ (executeAutomationRules 0 none baseTask
      [starterRuleC5, escalateRuleC5]).2 :=
  ⟨by decide,
    (C5_later_rule_sees_earlier_patch 0 none baseTask starterRuleC5
      escalateRuleC5 (by decide) (by decide) (by decide) (by decide)
      (by decide) (by decide)).2.mpr ⟨by decide, by decide⟩⟩

/-- C6: an enabled rule with trigger `due_date_approaching` matches iff
the task has a due date whose remaining hours `h` from evaluation time
satisfy `0 < h ≤ 24` (0 excluded, 24 included), and the decision is
independent of the old task and the change set. -/
theorem C6_due_date_window (now : Int) (rule : AutomationRule)
    (o1 o2 : Option Task) (newTask : Task) (cs1 cs2 : List String)
    (he : rule.enabled = true) (htr : rule.trigger = "due_date_approaching") :
    (shouldTriggerRule now rule ⟨o1, newTask, cs1⟩ = true ↔
      ∃ due, newTask.dueDate = some due ∧
        0 < hoursUntilDue now due.ms ∧ hoursUntilDue now due.ms ≤ 24) ∧
    shouldTriggerRule now rule ⟨o1, newTask, cs1⟩ =
      shouldTriggerRule now rule ⟨o2, newTask, cs2⟩ := by
  constructor
  · cases hdd : newTask.dueDate with
    | none => simp [shouldTriggerRule, he, htr, hdd]
    | some due => simp [shouldTriggerRule, he, htr, hdd]
  · simp [shouldTriggerRule, he, htr]

/-- C6 witness: at time 0 a task due in exactly 24 hours matches (the
boundary is included), independently of the change set. -/
theorem C6_due_date_window_witness :
    dueSoonRule.enabled = true ∧
    dueSoonRule.trigger = "due_date_approaching" ∧
    shouldTriggerRule 0 dueSoonRule ⟨none, dueTaskC6, []⟩ = true ∧
    shouldTriggerRule 0 dueSoonRule ⟨none, dueTaskC6, []⟩ =
      shouldTriggerRule 0 dueSoonRule ⟨some baseTask, dueTaskC6, ["status"]⟩ :=
  ⟨rfl, rfl,
    (C6_due_date_window 0 dueSoonRule none (some baseTask) dueTaskC6 []
      ["status"] rfl rfl).1.mpr ⟨⟨3, 86400000⟩, rfl, by decide, by decide⟩,
    (C6_due_date_window 0 dueSoonRule none (some baseTask) dueTaskC6 []
      ["status"] rfl rfl).2⟩

/-- C7: a disabled rule's trigger match is false without further
evaluation, and an id belonging only to disabled rules never appears in
the fired-rule list of `executeAutomationRules`. -/
theorem C7_disabled_rules_never_fire (now : Int) (oldTask : Option Task)
    (newTask : Task) (rules : List AutomationRule) (i : String)
    (hdis : ∀ r ∈ rules, r.id = i → r.enabled = false) :
    i ∉ (executeAutomationRules now oldTask newTask rules).2 ∧
    ∀ (rule : AutomationRule) (change : TaskChange),
      rule.enabled = false → shouldTriggerRule now rule change = false := by
  have hstr : ∀ (rule : AutomationRule) (change : TaskChange),
      rule.enabled = false → shouldTriggerRule now rule change = false := by
    intro rule change h
    simp [shouldTriggerRule, h]
  refine ⟨?_, hstr⟩
  unfold executeAutomationRules
  refine foldl_runRule_not_fired now _ (sortByCreatedAt rules) (newTask, []) i
    (by simp) ?_
  intro r hr hid2
  exact hstr r _ (hdis r ((mem_sortByCreatedAt r rules).mp hr) hid2)

/-- C7 witness: the disabled concrete rule never contributes its id. -/
theorem C7_disabled_rules_never_fire_witness :
    (∀ r ∈ [disabledRuleC7], r.id = "c7" → r.enabled = false) ∧
    "c7" ∉ (executeAutomationRules 0 none baseTask [disabledRuleC7]).2 ∧
    shouldTriggerRule 0 disabledRuleC7 ⟨none, baseTask, ["created"]⟩ = false :=
  ⟨by decide,
    (C7_disabled_rules_never_fire 0 none baseTask [disabledRuleC7] "c7"
      (by decide)).1,
    (C7_disabled_rules_never_fire 0 none baseTask [disabledRuleC7] "c7"
      (by decide)).2 disabledRuleC7 ⟨none, baseTask, ["created"]⟩ rfl⟩

end TaskFlow

namespace TaskFlow

/-- C8: a rule whose single action adds tag `t` appends `t` exactly once
(order preserved) and is recorded as fired on a task not yet carrying
`t`; on any task already carrying `t` the action is a no-op, so the rule
is not recorded and the task is unchanged — in particular a second run
on the first run's result fires nothing. -/
theorem C8_add_tag_idempotence (now now2 : Int) (oldTask : Option Task)
    (newTask : Task) (rule : AutomationRule) (a : RuleActionItem) (t : String)
    (hact : rule.actions = [a]) (hak : a.action = "add_tag")
    (htag : a.parameters.tag = some t) (hne : t ≠ "")
    (htrig : shouldTriggerRule now rule
      ⟨oldTask, newTask, getChangedFields oldTask newTask⟩ = true)
    (hcond : evaluateConditions newTask rule.conditions = true)
    (hmem : t ∉ newTask.tags) :
    (executeAutomationRules now oldTask newTask [rule]).1.tags =
      newTask.tags ++ [t] ∧
    (executeAutomationRules now oldTask newTask [rule]).2 = [rule.id] ∧
    ∀ (oldTask2 : Option Task) (task2 : Task), t ∈ task2.tags →
      (executeAutomationRules now2 oldTask2 task2 [rule]).2 = [] ∧
      (executeAutomationRules now2 oldTask2 task2 [rule]).1 = task2 := by
  have happ : applyAction newTask a = { tags := some (newTask.tags ++ [t]) } := by
    have hcont : newTask.tags.contains t = false :=
      contains_eq_false_of_not_mem hmem
    simp [applyAction, hak, htag, hne, hcont, hmem]
  have hfold : foldActions newTask rule.actions =
      { tags := some (newTask.tags ++ [t]) } := by
    rw [hact]
    simp [foldActions, happ, mergePatch_empty_left]
  have hexec : executeAutomationRules now oldTask newTask [rule] =
      (applyPatch newTask { tags := some (newTask.tags ++ [t]) }, [rule.id]) := by
    unfold executeAutomationRules
    rw [sortByCreatedAt_singleton, List.foldl_cons, List.foldl_nil,
      runRule_eq, if_pos htrig]
    simp [runMatchedRule, hcond, hfold, patchNonempty]
  refine ⟨by rw [hexec]; rfl, by rw [hexec], ?_⟩
  intro oldTask2 task2 hmem2
  have hcont2 : task2.tags.contains t = true := contains_eq_true_of_mem hmem2
  have happ2 : applyAction task2 a = emptyPatch := by
    simp [applyAction, hak, htag, hne, hcont2, hmem2, emptyPatch]
  have hfold2 : foldActions task2 rule.actions = emptyPatch := by
    rw [hact]
    simp [foldActions, happ2, mergePatch_empty_left]
  have hrun : executeAutomationRules now2 oldTask2 task2 [rule] = (task2, []) := by
    unfold executeAutomationRules
    rw [sortByCreatedAt_singleton, List.foldl_cons, List.foldl_nil, runRule_eq]
    by_cases ht2 : shouldTriggerRule now2 rule
        ⟨oldTask2, task2, getChangedFields oldTask2 task2⟩
    · rw [if_pos ht2]
      unfold runMatchedRule
      by_cases hc2 : evaluateConditions (task2, ([] : List String)).1
          rule.conditions
      · simp [hc2, hfold2, patchNonempty, emptyPatch]
      · simp [hc2]
    · rw [if_neg ht2]
  rw [hrun]
  exact ⟨rfl, rfl⟩

/-- C8 witness: the concrete tag rule fires once on the base task and
not again on the resulting task. -/
theorem C8_add_tag_idempotence_witness :
    (executeAutomationRules 0 none baseTask [tagRuleC8]).1.tags =
      ["completed"] ∧
    (executeAutomationRules 0 none baseTask [tagRuleC8]).2 = ["r8"] ∧
    (executeAutomationRules 5 none
      (executeAutomationRules 0 none baseTask [tagRuleC8]).1 [tagRuleC8]).2 =
      [] :=
  ⟨(C8_add_tag_idempotence 0 5 none baseTask tagRuleC8
      { id := "a-t", action := "add_tag", parameters := { tag := some "completed" } }
      "completed" rfl rfl rfl (by decide) (by decide) (by decide) (by decide)).1,
   (C8_add_tag_idempotence 0 5 none baseTask tagRuleC8
      { id := "a-t", action := "add_tag", parameters := { tag := some "completed" } }
      "completed" rfl rfl rfl (by decide) (by decide) (by decide) (by decide)).2.1,
   ((C8_add_tag_idempotence 0 5 none baseTask tagRuleC8
      { id := "a-t", action := "add_tag", parameters := { tag := some "completed" } }
      "completed" rfl rfl rfl (by decide) (by decide) (by decide) (by decide)).2.2
      none (executeAutomationRules 0 none baseTask [tagRuleC8]).1 (by decide)).1⟩

/-- C9, counterexample: a condition on an unknown field resolves the
field to `undefined`, but with the `not_equals` operator the condition
then evaluates to TRUE — it does not "fail" as the claim states. -/
theorem C9_claim_counterexample :
    getFieldValue baseTask "bogus_field" = JSVal.undefined ∧
    bogusFieldCondition.field = "bogus_field" ∧
    bogusFieldCondition.operator = "not_equals" ∧
    evaluateCondition baseTask bogusFieldCondition = true := by
  refine ⟨by decide, rfl, rfl, by decide⟩

/-- C9, amended: every engine operation is total; an unknown field
resolves to `undefined` and then takes part in ordinary operator
evaluation (`equals` against a non-`undefined` comparand is false, while
`not_equals` can be true); an unknown operator or trigger kind yields
false; an unknown action kind or a missing required parameter yields the
empty patch; and a `greater_than`/`less_than` comparison with a
NaN-coercing operand is false. -/
theorem C9_defensive_defaults (t : Task) (f cid op : String) (v : JSVal)
    (now : Int) (rule : AutomationRule) (change : TaskChange)
    (a : RuleActionItem) :
    (f ∉ knownFieldNames → getFieldValue t f = JSVal.undefined) ∧
    (f ∉ knownFieldNames → v ≠ JSVal.undefined →
      evaluateCondition t ⟨cid, f, "equals", v⟩ = false) ∧
    (op ∉ knownOperators → evaluateCondition t ⟨cid, f, op, v⟩ = false) ∧
    (rule.trigger ∉ knownTriggers →
      shouldTriggerRule now rule change = false) ∧
    (a.action ∉ knownActions → applyAction t a = emptyPatch) ∧
    (a.action = "set_status" → a.parameters.status = none →
      applyAction t a = emptyPatch) ∧
    (a.action = "set_priority" → a.parameters.priority = none →
      applyAction t a = emptyPatch) ∧
    (a.action = "assign_to" → a.parameters.assignedTo = none →
      applyAction t a = emptyPatch) ∧
    (a.action = "add_tag" → a.parameters.tag = none →
      applyAction t a = emptyPatch) ∧
    ((toNumber (getFieldValue t f) = JSNum.nan ∨ toNumber v = JSNum.nan) →
      evaluateCondition t ⟨cid, f, "greater_than", v⟩ = false ∧
      evaluateCondition t ⟨cid, f, "less_than", v⟩ = false) := by
  have hfield : f ∉ knownFieldNames → getFieldValue t f = JSVal.undefined := by
    intro h
    simp only [knownFieldNames, List.mem_cons, List.not_mem_nil, or_false,
      not_or] at h
    obtain ⟨h1, h2, h3, h4, h5, h6, h7, h8, h9, h10, h11, h12, h13, h14, h15,
      h16, h17, h18, h19, h20, h21, h22, h23, h24, h25, h26, h27, h28, h29,
      h30, h31, h32, h33, h34, h35⟩ := h
    simp [getFieldValue, h1, h2, h3, h4, h5, h6, h7, h8, h9, h10, h11, h12,
      h13, h14, h15, h16, h17, h18, h19, h20, h21, h22, h23, h24, h25, h26,
      h27, h28, h29, h30, h31, h32, h33, h34, h35]
  refine ⟨hfield, ?_, ?_, ?_, ?_, ?_, ?_, ?_, ?_, ?_⟩
  · intro h hv
    have hu := hfield h
    simp only [evaluateCondition, hu]
    cases v <;> simp_all [jsStrictEq]
  · intro h
    simp only [knownOperators, List.mem_cons, List.not_mem_nil, or_false,
      not_or] at h
    obtain ⟨h1, h2, h3, h4, h5⟩ := h
    simp [evaluateCondition, h1, h2, h3, h4, h5]
  · intro h
    simp only [knownTriggers, List.mem_cons, List.not_mem_nil, or_false,
      not_or] at h
    obtain ⟨h1, h2, h3, h4, h5⟩ := h
    by_cases he : rule.enabled
    · simp [shouldTriggerRule, he, h1, h2, h3, h4, h5]
    · simp [shouldTriggerRule, he]
  · intro h
    simp only [knownActions, List.mem_cons, List.not_mem_nil, or_false,
      not_or] at h
    obtain ⟨h1, h2, h3, h4, h5⟩ := h
    simp [applyAction, h1, h2, h3, h4, h5, emptyPatch]
  · intro hk hp
    simp [applyAction, hk, hp, strTruthy, emptyPatch]
  · intro hk hp
    simp [applyAction, hk, hp, strTruthy, emptyPatch]
  · intro hk hp
    simp [applyAction, hk, hp, emptyPatch]
  · intro hk hp
    simp [applyAction, hk, hp, emptyPatch]
  · intro h
    rcases h with h | h
    · exact ⟨by simp [evaluateCondition, jsNumGt, h, jsNumLt_nan_right],
             by simp [evaluateCondition, jsNumGt, h, jsNumLt_nan_left]⟩
    · exact ⟨by simp [evaluateCondition, jsNumGt, h, jsNumLt_nan_left],
             by simp [evaluateCondition, jsNumGt, h, jsNumLt_nan_right]⟩

/-- C9 witness: the amended defaults at concrete inputs — unknown field,
unknown operator, unknown trigger, unknown action, and a non-numeric
comparison. -/
theorem C9_defensive_defaults_witness :
    getFieldValue baseTask "bogus_field" = JSVal.undefined ∧
    evaluateCondition baseTask ⟨"c", "bogus_field", "equals", .vstr "x"⟩ =
      false ∧
    evaluateCondition baseTask ⟨"c", "status", "weird_op", .vstr "x"⟩ =
      false ∧
    shouldTriggerRule 0 strangeTriggerRuleC9 ⟨none, baseTask, []⟩ = false ∧
    applyAction baseTask strangeActionC9 = emptyPatch ∧
    evaluateCondition baseTask ⟨"c", "bogus_field", "greater_than", .vstr "x"⟩ =
      false :=
  ⟨(C9_defensive_defaults baseTask "bogus_field" "c" "weird_op" (.vstr "x") 0
      strangeTriggerRuleC9 ⟨none, baseTask, []⟩ strangeActionC9).1 (by decide),
   (C9_defensive_defaults baseTask "bogus_field" "c" "weird_op" (.vstr "x") 0
      strangeTriggerRuleC9 ⟨none, baseTask, []⟩ strangeActionC9).2.1
      (by decide) (by decide),
   (C9_defensive_defaults baseTask "status" "c" "weird_op" (.vstr "x") 0
      strangeTriggerRuleC9 ⟨none, baseTask, []⟩ strangeActionC9).2.2.1
      (by decide),
   (C9_defensive_defaults baseTask "status" "c" "weird_op" (.vstr "x") 0
      strangeTriggerRuleC9 ⟨none, baseTask, []⟩ strangeActionC9).2.2.2.1
      (by decide),
   (C9_defensive_defaults baseTask "status" "c" "weird_op" (.vstr "x") 0
      strangeTriggerRuleC9 ⟨none, baseTask, []⟩ strangeActionC9).2.2.2.2.1
      (by decide),
   ((C9_defensive_defaults baseTask "bogus_field" "c" "weird_op" (.vstr "x") 0
      strangeTriggerRuleC9 ⟨none, baseTask, []⟩ strangeActionC9).2.2.2.2.2.2.2.2.2
      (Or.inl (by decide))).1⟩

/-- C10: the four patchable fields (`status`, `priority`, `assignedTo`,
`tags`) are the only task fields any action can change — every other
field of the task returned by `executeAutomationRules` equals the
corresponding field of `newTask`, for every input. -/
theorem C10_actions_frame (now : Int) (oldTask : Option Task)
    (newTask : Task) (rules : List AutomationRule) :
    (executeAutomationRules now oldTask newTask rules).1.id =
      newTask.id ∧
    (executeAutomationRules now oldTask newTask rules).1.key =
      newTask.key ∧
    (executeAutomationRules now oldTask newTask rules).1.title =
      newTask.title ∧
    (executeAutomationRules now oldTask newTask rules).1.description =
      newTask.description ∧
    (executeAutomationRules now oldTask newTask rules).1.category =
      newTask.category ∧
    (executeAutomationRules now oldTask newTask rules).1.epicId =
      newTask.epicId ∧
    (executeAutomationRules now oldTask newTask rules).1.sprintId =
      newTask.sprintId ∧
    (executeAutomationRules now oldTask newTask rules).1.jobSiteId =
      newTask.jobSiteId ∧
    (executeAutomationRules now oldTask newTask rules).1.parentTaskId =
      newTask.parentTaskId ∧
    (executeAutomationRules now oldTask newTask rules).1.relatedTaskIds =
      newTask.relatedTaskIds ∧
    (executeAutomationRules now oldTask newTask rules).1.createdBy =
      newTask.createdBy ∧
    (executeAutomationRules now oldTask newTask rules).1.reviewers =
      newTask.reviewers ∧
    (executeAutomationRules now oldTask newTask rules).1.createdAt =
      newTask.createdAt ∧
    (executeAutomationRules now oldTask newTask rules).1.updatedAt =
      newTask.updatedAt ∧
    (executeAutomationRules now oldTask newTask rules).1.dueDate =
      newTask.dueDate ∧
    (executeAutomationRules now oldTask newTask rules).1.startDate =
      newTask.startDate ∧
    (executeAutomationRules now oldTask newTask rules).1.completedAt =
      newTask.completedAt ∧
    (executeAutomationRules now oldTask newTask rules).1.comments =
      newTask.comments ∧
    (executeAutomationRules now oldTask newTask rules).1.attachments =
      newTask.attachments ∧
    (executeAutomationRules now oldTask newTask rules).1.checklist =
      newTask.checklist ∧
    (executeAutomationRules now oldTask newTask rules).1.subtasks =
      newTask.subtasks ∧
    (executeAutomationRules now oldTask newTask rules).1.customFields =
      newTask.customFields ∧
    (executeAutomationRules now oldTask newTask rules).1.estimatedHours =
      newTask.estimatedHours ∧
    (executeAutomationRules now oldTask newTask rules).1.completionPercentage =
      newTask.completionPercentage ∧
    (executeAutomationRules now oldTask newTask rules).1.blockedBy =
      newTask.blockedBy ∧
    (executeAutomationRules now oldTask newTask rules).1.isLocked =
      newTask.isLocked ∧
    (executeAutomationRules now oldTask newTask rules).1.isFavorite =
      newTask.isFavorite ∧
    (executeAutomationRules now oldTask newTask rules).1.estimatedCost =
      newTask.estimatedCost ∧
    (executeAutomationRules now oldTask newTask rules).1.actualCost =
      newTask.actualCost ∧
    (executeAutomationRules now oldTask newTask rules).1.costBreakdown =
      newTask.costBreakdown ∧
    (executeAutomationRules now oldTask newTask rules).1.billable =
      newTask.billable := by
  have h : frameOf (executeAutomationRules now oldTask newTask rules).1 =
      frameOf newTask := by
    unfold executeAutomationRules
    exact frameOf_foldl_runRule now _ (sortByCreatedAt rules) (newTask, [])
  simp only [frameOf, Prod.mk.injEq] at h
  exact h

end TaskFlow
